import Mathlib

/-!
Shallow embedding of the steering-odometry and speed-limiter core of the
`ros2_controllers` fork (files `steering_controllers_library/src/steering_odometry.cpp`
and `four_steering_controller/src/speed_limiter.cpp`).

C++ `double` values are modelled as real numbers (`ℝ`); member functions become
pure functions from an explicit `SteeringOdometry` state to an updated state
(paired with the C++ return value where there is one).
-/

namespace SteeringVerif

/-- C `copysign(x, y)`: the magnitude of `x` with the sign of `y`.
Signed zero is not representable in `ℝ`; `y = 0` behaves as positive,
matching C for a non-negative zero. -/
noncomputable def copysign (x y : ℝ) : ℝ := if y < 0 then -|x| else |x|

/-- C `hypot(x, y) = sqrt(x² + y²)`. -/
noncomputable def hypot (x y : ℝ) : ℝ := Real.sqrt (x ^ 2 + y ^ 2)

/-- C `atan2(y, x)` (only well-conditioned uses occur in the claims; the
standard quadrant definition is modelled, with `atan2(0, 0) = 0`). -/
noncomputable def atan2 (y x : ℝ) : ℝ :=
  if 0 < x then Real.arctan (y / x)
  else if x < 0 then
    (if 0 ≤ y then Real.arctan (y / x) + Real.pi else Real.arctan (y / x) - Real.pi)
  else (if 0 < y then Real.pi / 2 else if y < 0 then -(Real.pi / 2) else 0)

/-- Embeds `rcppmath::clamp(v, lo, hi)`: `(v < lo) ? lo : (hi < v) ? hi : v`. -/
noncomputable def clamp (v lo hi : ℝ) : ℝ := if v < lo then lo else if hi < v then hi else v

/-- Embeds `rcppmath::RollingMeanAccumulator<double>`: a window of the most recent
`size` samples (most recent first) whose rolling mean is their arithmetic mean. -/
structure RollingMeanAcc where
  size : ℕ
  samples : List ℝ

/-- Push a sample, keeping only the most recent `size` samples. -/
def RollingMeanAcc.accumulate (a : RollingMeanAcc) (x : ℝ) : RollingMeanAcc :=
  { a with samples := (x :: a.samples).take a.size }

/-- Arithmetic mean of the stored samples. -/
noncomputable def RollingMeanAcc.getRollingMean (a : RollingMeanAcc) : ℝ :=
  a.samples.sum / (a.samples.length : ℝ)

/-- The mutable state of `steering_odometry::SteeringOdometry`
(field names follow the C++ members; the `timestamp_` member is omitted as no
modelled operation reads it). -/
structure SteeringOdometry where
  x_ : ℝ
  y_ : ℝ
  heading_ : ℝ
  linear_ : ℝ
  angular_ : ℝ
  wheel_track_ : ℝ
  wheelbase_ : ℝ
  wheel_radius_ : ℝ
  y_steering_offset_ : ℝ
  steer_pos_ : ℝ
  traction_wheel_old_pos_ : ℝ
  traction_right_wheel_old_pos_ : ℝ
  traction_left_wheel_old_pos_ : ℝ
  linear_acc_ : RollingMeanAcc
  angular_acc_ : RollingMeanAcc
  config_type_ : ℕ

/-- Enum value `BICYCLE_CONFIG` (declared in `steering_odometry.hpp`; only the
mutual distinctness of the four enumerators matters to the dispatch chain). -/
def BICYCLE_CONFIG : ℕ := 0

/-- Enum value `TRICYCLE_CONFIG`. -/
def TRICYCLE_CONFIG : ℕ := 1

/-- Enum value `ACKERMANN_CONFIG`. -/
def ACKERMANN_CONFIG : ℕ := 2

/-- Enum value `FOUR_STEERING_CONFIG`. -/
def FOUR_STEERING_CONFIG : ℕ := 3

/-- Embeds `SteeringOdometry::integrate_runge_kutta_2(linear, angular)`. -/
noncomputable def integrate_runge_kutta_2 (s : SteeringOdometry) (linear angular : ℝ) :
    SteeringOdometry :=
  let direction := s.heading_ + angular * 0.5
  { s with
    x_ := s.x_ + linear * Real.cos direction
    y_ := s.y_ + linear * Real.sin direction
    heading_ := s.heading_ + angular }

/-- Embeds `SteeringOdometry::integrate_exact(linear, angular)`. -/
noncomputable def integrate_exact (s : SteeringOdometry) (linear angular : ℝ) :
    SteeringOdometry :=
  if |angular| < 1e-6 then integrate_runge_kutta_2 s linear angular
  else
    let heading_old := s.heading_
    let r := linear / angular
    { s with
      heading_ := s.heading_ + angular
      x_ := s.x_ + r * (Real.sin (s.heading_ + angular) - Real.sin heading_old)
      y_ := s.y_ + -r * (Real.cos (s.heading_ + angular) - Real.cos heading_old) }

/-- Embeds `SteeringOdometry::update_odometry(linear_velocity, angular, dt)`: integrate
the pose first, then refuse (`false`) to refresh the velocity estimate when
`dt < 0.0001`, otherwise feed the rolling accumulators and refresh
`linear_` / `angular_`. -/
noncomputable def update_odometry (s : SteeringOdometry)
    (linear_velocity angular dt : ℝ) : SteeringOdometry × Bool :=
  let s1 := integrate_exact s (linear_velocity * dt) angular
  if dt < 0.0001 then (s1, false)
  else
    let la := s1.linear_acc_.accumulate linear_velocity
    let aa := s1.angular_acc_.accumulate (angular / dt)
    ({ s1 with
        linear_acc_ := la
        angular_acc_ := aa
        linear_ := la.getRollingMean
        angular_ := aa.getRollingMean }, true)

/-- Embeds `SteeringOdometry::update_from_position(traction_wheel_pos, steer_pos, dt)`
(single traction wheel, single steering axis). -/
noncomputable def update_from_position1 (s : SteeringOdometry)
    (traction_wheel_pos steer_pos dt : ℝ) : SteeringOdometry × Bool :=
  let traction_wheel_cur_pos := traction_wheel_pos * s.wheel_radius_
  let traction_wheel_est_pos_diff := traction_wheel_cur_pos - s.traction_wheel_old_pos_
  let linear_velocity := traction_wheel_est_pos_diff / dt
  let angular := Real.tan steer_pos * linear_velocity / s.wheelbase_
  update_odometry
    { s with traction_wheel_old_pos_ := traction_wheel_cur_pos, steer_pos_ := steer_pos }
    linear_velocity angular dt

/-- Embeds `SteeringOdometry::update_from_position(right_pos, left_pos, steer_pos, dt)`
(dual traction wheels, single steering axis). -/
noncomputable def update_from_position2 (s : SteeringOdometry)
    (traction_right_wheel_pos traction_left_wheel_pos steer_pos dt : ℝ) :
    SteeringOdometry × Bool :=
  let right_cur := traction_right_wheel_pos * s.wheel_radius_
  let left_cur := traction_left_wheel_pos * s.wheel_radius_
  let right_diff := right_cur - s.traction_right_wheel_old_pos_
  let left_diff := left_cur - s.traction_left_wheel_old_pos_
  let linear_velocity := (right_diff + left_diff) * 0.5 / dt
  let angular := Real.tan steer_pos * linear_velocity / s.wheelbase_
  update_odometry
    { s with
      traction_right_wheel_old_pos_ := right_cur
      traction_left_wheel_old_pos_ := left_cur
      steer_pos_ := steer_pos }
    linear_velocity angular dt

/-- Embeds `SteeringOdometry::update_from_position(right_pos, left_pos, right_steer,
left_steer, dt)` (dual traction wheels, dual steering axes; the stored steering
angle is the mean of the two axes and feeds `tan`). -/
noncomputable def update_from_position3 (s : SteeringOdometry)
    (traction_right_wheel_pos traction_left_wheel_pos right_steer_pos left_steer_pos dt : ℝ) :
    SteeringOdometry × Bool :=
  let right_cur := traction_right_wheel_pos * s.wheel_radius_
  let left_cur := traction_left_wheel_pos * s.wheel_radius_
  let right_diff := right_cur - s.traction_right_wheel_old_pos_
  let left_diff := left_cur - s.traction_left_wheel_old_pos_
  let linear_velocity := (right_diff + left_diff) * 0.5 / dt
  let steer_mean := (right_steer_pos + left_steer_pos) * 0.5
  let angular := Real.tan steer_mean * linear_velocity / s.wheelbase_
  update_odometry
    { s with
      traction_right_wheel_old_pos_ := right_cur
      traction_left_wheel_old_pos_ := left_cur
      steer_pos_ := steer_mean }
    linear_velocity angular dt

/-- Embeds `SteeringOdometry::update_from_velocity(traction_wheel_vel, steer_pos, dt)`
(single traction wheel, single steering axis). -/
noncomputable def update_from_velocity1 (s : SteeringOdometry)
    (traction_wheel_vel steer_pos dt : ℝ) : SteeringOdometry × Bool :=
  let linear_velocity := traction_wheel_vel * s.wheel_radius_
  let angular := Real.tan steer_pos * linear_velocity / s.wheelbase_
  update_odometry { s with steer_pos_ := steer_pos } linear_velocity angular dt

/-- Embeds `SteeringOdometry::update_from_velocity(right_vel, left_vel, steer_pos, dt)`
(dual traction wheels, single steering axis). -/
noncomputable def update_from_velocity2 (s : SteeringOdometry)
    (right_traction_wheel_vel left_traction_wheel_vel steer_pos dt : ℝ) :
    SteeringOdometry × Bool :=
  let linear_velocity := (right_traction_wheel_vel + left_traction_wheel_vel) *
    s.wheel_radius_ * 0.5
  let angular := Real.tan steer_pos * linear_velocity / s.wheelbase_
  update_odometry { s with steer_pos_ := steer_pos } linear_velocity angular dt

/-- Embeds `SteeringOdometry::update_from_velocity(right_vel, left_vel, right_steer,
left_steer, dt)` (dual traction wheels, dual steering axes). NOTE: the source
computes `angular = steer_pos_ * linear_velocity / wheelbase_` — the averaged
steering angle is used directly, with no `tan`, unlike the position overload. -/
noncomputable def update_from_velocity3 (s : SteeringOdometry)
    (right_traction_wheel_vel left_traction_wheel_vel right_steer_pos left_steer_pos dt : ℝ) :
    SteeringOdometry × Bool :=
  let steer_mean := (right_steer_pos + left_steer_pos) * 0.5
  let linear_velocity := (right_traction_wheel_vel + left_traction_wheel_vel) *
    s.wheel_radius_ * 0.5
  let angular := steer_mean * linear_velocity / s.wheelbase_
  update_odometry { s with steer_pos_ := steer_mean } linear_velocity angular dt

/-- Embeds `SteeringOdometry::update_four_steering(fr, fl, rr, rl, front_steering,
rear_steering, dt)`. The member `angular_` is assigned directly (before the
shared `update_odometry` call and hence before its `dt` check); the front
linear-speed magnitude uses the raw `fl_speed`/`fr_speed` while the rear uses
the offset-corrected `rl_speed_tmp`/`rr_speed_tmp`, exactly as in the source. -/
noncomputable def update_four_steering (s : SteeringOdometry)
    (fr_speed fl_speed rr_speed rl_speed front_steering rear_steering dt : ℝ) :
    SteeringOdometry × Bool :=
  let front_tmp := Real.cos front_steering *
    (Real.tan front_steering - Real.tan rear_steering) / s.wheelbase_
  let front_left_tmp := front_tmp / Real.sqrt (1 - s.wheel_track_ * front_tmp *
    Real.cos front_steering + (s.wheel_track_ * front_tmp / 2) ^ 2)
  let front_right_tmp := front_tmp / Real.sqrt (1 + s.wheel_track_ * front_tmp *
    Real.cos front_steering + (s.wheel_track_ * front_tmp / 2) ^ 2)
  let fl_speed_tmp := fl_speed * (1 / (1 - s.y_steering_offset_ * front_left_tmp))
  let fr_speed_tmp := fr_speed * (1 / (1 - s.y_steering_offset_ * front_right_tmp))
  let front_linear_speed := s.wheel_radius_ * copysign 1 (fl_speed_tmp + fr_speed_tmp) *
    Real.sqrt ((fl_speed ^ 2 + fr_speed ^ 2) / (2 + (s.wheel_track_ * front_tmp) ^ 2 / 2))
  let rear_tmp := Real.cos rear_steering *
    (Real.tan front_steering - Real.tan rear_steering) / s.wheelbase_
  let rear_left_tmp := rear_tmp / Real.sqrt (1 - s.wheel_track_ * rear_tmp *
    Real.cos rear_steering + (s.wheel_track_ * rear_tmp / 2) ^ 2)
  let rear_right_tmp := rear_tmp / Real.sqrt (1 + s.wheel_track_ * rear_tmp *
    Real.cos rear_steering + (s.wheel_track_ * rear_tmp / 2) ^ 2)
  let rl_speed_tmp := rl_speed * (1 / (1 - s.y_steering_offset_ * rear_left_tmp))
  let rr_speed_tmp := rr_speed * (1 / (1 - s.y_steering_offset_ * rear_right_tmp))
  let rear_linear_speed := s.wheel_radius_ * copysign 1 (rl_speed_tmp + rr_speed_tmp) *
    Real.sqrt ((rl_speed_tmp ^ 2 + rr_speed_tmp ^ 2) / (2 + (s.wheel_track_ * rear_tmp) ^ 2 / 2))
  let angular_new := (front_linear_speed * front_tmp + rear_linear_speed * rear_tmp) / 2
  let linear_x := (front_linear_speed * Real.cos front_steering +
    rear_linear_speed * Real.cos rear_steering) / 2
  let linear_y := (front_linear_speed * Real.sin front_steering -
    s.wheelbase_ * angular_new / 2 + rear_linear_speed * Real.sin rear_steering +
    s.wheelbase_ * angular_new / 2) / 2
  let linear_velocity := copysign 1 rear_linear_speed *
    Real.sqrt (linear_x ^ 2 + linear_y ^ 2)
  update_odometry { s with angular_ := angular_new } linear_velocity angular_new dt

/-- Embeds `SteeringOdometry::update_open_loop(linear, angular, dt)`: store the
commanded velocities and integrate with both arguments scaled by `dt`. -/
noncomputable def update_open_loop (s : SteeringOdometry) (linear angular dt : ℝ) :
    SteeringOdometry :=
  integrate_exact { s with linear_ := linear, angular_ := angular }
    (linear * dt) (angular * dt)

/-- Embeds `SteeringOdometry::convert_trans_rot_vel_to_steering_angle(Vx, theta_dot)`. -/
noncomputable def convert_trans_rot_vel_to_steering_angle (s : SteeringOdometry)
    (Vx theta_dot : ℝ) : ℝ :=
  if theta_dot = 0 ∨ Vx = 0 then 0
  else Real.arctan (theta_dot * s.wheelbase_ / Vx)

/-- The intermediate pair `(Ws, alpha)` computed at the top of
`SteeringOdometry::get_commands(Vx, angular, from_twist)`. In the source both
are declared uninitialized (`double Ws, alpha;`); the `from_twist == false`
branch assigns only `alpha`, so `Ws` keeps its indeterminate initial value,
modelled here by the explicit parameter `wsUninit`. -/
noncomputable def get_commands_ws_alpha (s : SteeringOdometry) (Vx angular : ℝ)
    (from_twist : Bool) (wsUninit : ℝ) : ℝ × ℝ :=
  if from_twist then
    if Vx = 0 ∧ angular ≠ 0 then
      (|angular| * s.wheelbase_ / s.wheel_radius_,
       if angular > 0 then Real.pi / 2 else -(Real.pi / 2))
    else
      (Vx / (s.wheel_radius_ * Real.cos s.steer_pos_),
       convert_trans_rot_vel_to_steering_angle s Vx angular)
  else (wsUninit, angular)

/-- Embeds `SteeringOdometry::get_commands(Vx, angular, from_twist)`: returns
`(traction_commands, steering_commands)` or the `std::runtime_error` message
for an unknown configuration. `wsUninit` is the indeterminate initial value of
the local `Ws` (read uninitialized when `from_twist` is `false`). -/
noncomputable def get_commands (s : SteeringOdometry) (Vx angular : ℝ)
    (from_twist : Bool) (wsUninit : ℝ) : Except String (List ℝ × List ℝ) :=
  let Ws := (get_commands_ws_alpha s Vx angular from_twist wsUninit).1
  let alpha := (get_commands_ws_alpha s Vx angular from_twist wsUninit).2
  if s.config_type_ = BICYCLE_CONFIG then
    Except.ok ([Ws], [alpha])
  else if s.config_type_ = TRICYCLE_CONFIG then
    if |s.steer_pos_| < 1e-6 then Except.ok ([Ws, Ws], [alpha])
    else
      let turning_radius := s.wheelbase_ / Real.tan s.steer_pos_
      let Wr := Ws * (turning_radius + s.wheel_track_ * 0.5) / turning_radius
      let Wl := Ws * (turning_radius - s.wheel_track_ * 0.5) / turning_radius
      Except.ok ([Wr, Wl], [alpha])
  else if s.config_type_ = ACKERMANN_CONFIG then
    if |s.steer_pos_| < 1e-6 then Except.ok ([Ws, Ws], [alpha, alpha])
    else
      let turning_radius := s.wheelbase_ / Real.tan s.steer_pos_
      let Wr := Ws * (turning_radius + s.wheel_track_ * 0.5) / turning_radius
      let Wl := Ws * (turning_radius - s.wheel_track_ * 0.5) / turning_radius
      let numerator := 2 * s.wheelbase_ * Real.sin alpha
      let denom_first := 2 * s.wheelbase_ * Real.cos alpha
      let denom_second := s.wheel_track_ * Real.sin alpha
      let alpha_r := atan2 numerator (denom_first - denom_second)
      let alpha_l := atan2 numerator (denom_first + denom_second)
      Except.ok ([Wr, Wl], [alpha_r, alpha_l])
  else if s.config_type_ = FOUR_STEERING_CONFIG then
    let steering_track := s.wheel_track_ - 2 * s.y_steering_offset_
    let vel_steering_offset := alpha * s.y_steering_offset_ / s.wheel_radius_
    let sign := copysign 1 Ws
    let vel_left_front := sign * hypot (Ws - alpha * steering_track / 2)
      (s.wheelbase_ * alpha / 2) / s.wheel_radius_ - vel_steering_offset
    let vel_right_front := sign * hypot (Ws + alpha * steering_track / 2)
      (s.wheelbase_ * alpha / 2) / s.wheel_radius_ + vel_steering_offset
    let vel_left_rear := sign * hypot (Ws - alpha * steering_track / 2)
      (s.wheelbase_ * alpha / 2) / s.wheel_radius_ - vel_steering_offset
    let vel_right_rear := sign * hypot (Ws + alpha * steering_track / 2)
      (s.wheelbase_ * alpha / 2) / s.wheel_radius_ + vel_steering_offset
    let front_left_steering :=
      if |alpha * steering_track| < |2 * Ws| then
        Real.arctan (alpha * s.wheelbase_ / (2 * Ws - alpha * steering_track))
      else if 0.001 < |Ws| then copysign (Real.pi / 2) alpha
      else 0
    let front_right_steering :=
      if |alpha * steering_track| < |2 * Ws| then
        Real.arctan (alpha * s.wheelbase_ / (2 * Ws + alpha * steering_track))
      else if 0.001 < |Ws| then copysign (Real.pi / 2) alpha
      else 0
    Except.ok ([vel_left_front, vel_right_front, vel_left_rear, vel_right_rear],
      [front_left_steering, front_right_steering,
       -front_left_steering, -front_right_steering])
  else Except.error "Config not implemented"

/-- The state of `four_steering_controller::SpeedLimiter` after construction
(field names follow the C++ members). -/
structure SpeedLimiter where
  has_velocity_limits_ : Bool
  has_acceleration_limits_ : Bool
  has_jerk_limits_ : Bool
  min_velocity_ : ℝ
  max_velocity_ : ℝ
  min_acceleration_ : ℝ
  max_acceleration_ : ℝ
  min_jerk_ : ℝ
  max_jerk_ : ℝ

/-- One min/max pair of the `SpeedLimiter` constructor body: an enabled
category whose max is unspecified (`NaN` in C++, `none` here) throws; an
enabled category whose min is unspecified derives `min = -max`. A disabled
category is not validated (its possibly-unspecified bounds are never read by
any limiting stage; the unspecified placeholder is rendered as `0`). -/
noncomputable def resolve_limits (enabled : Bool) (mn mx : Option ℝ) (msg : String) :
    Except String (ℝ × ℝ) :=
  if enabled then
    match mx with
    | none => Except.error msg
    | some m => Except.ok (mn.getD (-m), m)
  else Except.ok (mn.getD 0, mx.getD 0)

/-- Embeds `SpeedLimiter::SpeedLimiter(...)`: C++ `NaN` ("unspecified") arguments are
modelled as `none`; a thrown `std::runtime_error` becomes `Except.error`. The
three categories are validated in the source's order: velocity, acceleration,
jerk. -/
noncomputable def mkSpeedLimiter (has_velocity_limits has_acceleration_limits has_jerk_limits :
    Bool) (min_velocity max_velocity min_acceleration max_acceleration min_jerk max_jerk :
    Option ℝ) : Except String SpeedLimiter :=
  match resolve_limits has_velocity_limits min_velocity max_velocity
      "Cannot apply velocity limits if max_velocity is not specified" with
  | Except.error e => Except.error e
  | Except.ok (mnv, mxv) =>
    match resolve_limits has_acceleration_limits min_acceleration max_acceleration
        "Cannot apply acceleration limits if max_acceleration is not specified" with
    | Except.error e => Except.error e
    | Except.ok (mna, mxa) =>
      match resolve_limits has_jerk_limits min_jerk max_jerk
          "Cannot apply jerk limits if max_jerk is not specified" with
      | Except.error e => Except.error e
      | Except.ok (mnj, mxj) =>
        Except.ok
          { has_velocity_limits_ := has_velocity_limits
            has_acceleration_limits_ := has_acceleration_limits
            has_jerk_limits_ := has_jerk_limits
            min_velocity_ := mnv
            max_velocity_ := mxv
            min_acceleration_ := mna
            max_acceleration_ := mxa
            min_jerk_ := mnj
            max_jerk_ := mxj }

/-- Embeds `SpeedLimiter::limit_velocity(v)` (double variant; the float variant has
identical logic). Returns the written-back `v` paired with the returned
diagnostic quotient `tmp != 0.0 ? v / tmp : 1.0`. -/
noncomputable def SpeedLimiter.limit_velocity (lim : SpeedLimiter) (v : ℝ) : ℝ × ℝ :=
  let tmp := v
  let vNew := if lim.has_velocity_limits_ then clamp v lim.min_velocity_ lim.max_velocity_ else v
  (vNew, if tmp ≠ 0 then vNew / tmp else 1)

/-- Embeds `SpeedLimiter::limit_acceleration(v, v0, dt)` (double variant). -/
noncomputable def SpeedLimiter.limit_acceleration (lim : SpeedLimiter) (v v0 dt : ℝ) : ℝ × ℝ :=
  let tmp := v
  let vNew :=
    if lim.has_acceleration_limits_ then
      let dv_min := lim.min_acceleration_ * dt
      let dv_max := lim.max_acceleration_ * dt
      let dv := clamp (v - v0) dv_min dv_max
      v0 + dv
    else v
  (vNew, if tmp ≠ 0 then vNew / tmp else 1)

/-- Embeds `SpeedLimiter::limit_jerk(v, v0, v1, dt)` (double variant). -/
noncomputable def SpeedLimiter.limit_jerk (lim : SpeedLimiter) (v v0 v1 dt : ℝ) : ℝ × ℝ :=
  let tmp := v
  let vNew :=
    if lim.has_jerk_limits_ then
      let dv := v - v0
      let dv0 := v0 - v1
      let dt2 := 2 * dt * dt
      let da_min := lim.min_jerk_ * dt2
      let da_max := lim.max_jerk_ * dt2
      let da := clamp (dv - dv0) da_min da_max
      v0 + dv0 + da
    else v
  (vNew, if tmp ≠ 0 then vNew / tmp else 1)

/-- Embeds `SpeedLimiter::limit(v, v0, v1, dt)` (double variant): jerk stage, then
acceleration stage, then velocity stage, then the diagnostic quotient against
the original `v`. -/
noncomputable def SpeedLimiter.limit (lim : SpeedLimiter) (v v0 v1 dt : ℝ) : ℝ × ℝ :=
  let tmp := v
  let vJ := (lim.limit_jerk v v0 v1 dt).1
  let vA := (lim.limit_acceleration vJ v0 dt).1
  let vV := (lim.limit_velocity vA).1
  (vV, if tmp ≠ 0 then vV / tmp else 1)

/-! ## Supporting lemmas -/

lemma update_odometry_small_dt (s : SteeringOdometry) (lv ang dt : ℝ)
    (h : dt < 0.0001) :
    update_odometry s lv ang dt = (integrate_exact s (lv * dt) ang, false) := by
  unfold update_odometry
  rw [if_pos h]

lemma integrate_exact_linear_angular (s : SteeringOdometry) (l a : ℝ) :
    (integrate_exact s l a).linear_ = s.linear_ ∧
    (integrate_exact s l a).angular_ = s.angular_ := by
  unfold integrate_exact integrate_runge_kutta_2
  split <;> exact ⟨rfl, rfl⟩

lemma integrate_exact_angular (s : SteeringOdometry) (l a : ℝ) :
    (integrate_exact s l a).angular_ = s.angular_ :=
  (integrate_exact_linear_angular s l a).2

lemma integrate_exact_angular_acc (s : SteeringOdometry) (l a : ℝ) :
    (integrate_exact s l a).angular_acc_ = s.angular_acc_ := by
  unfold integrate_exact integrate_runge_kutta_2
  split <;> rfl

lemma integrate_exact_pose_congr (s t : SteeringOdometry) (l a : ℝ)
    (hx : t.x_ = s.x_) (hy : t.y_ = s.y_) (hh : t.heading_ = s.heading_) :
    (integrate_exact t l a).x_ = (integrate_exact s l a).x_ ∧
    (integrate_exact t l a).y_ = (integrate_exact s l a).y_ ∧
    (integrate_exact t l a).heading_ = (integrate_exact s l a).heading_ := by
  unfold integrate_exact integrate_runge_kutta_2
  split <;> simp [hx, hy, hh]

lemma hypot_zero_right (x : ℝ) : hypot x 0 = |x| := by
  unfold hypot
  rw [show x ^ 2 + (0 : ℝ) ^ 2 = x ^ 2 by ring, Real.sqrt_sq_eq_abs]

lemma copysign_one_mul_abs (x : ℝ) : copysign 1 x * |x| = x := by
  unfold copysign
  split_ifs with h
  · rw [abs_one, abs_of_neg h]
    ring
  · rw [abs_one, one_mul, abs_of_nonneg (not_lt.mp h)]

lemma clamp_mem_of_le (v lo hi : ℝ) (h : lo ≤ hi) :
    lo ≤ clamp v lo hi ∧ clamp v lo hi ≤ hi := by
  unfold clamp
  split_ifs with h1 h2 <;> constructor <;> linarith

lemma small_dt_entry (s t : SteeringOdometry) (lv ang dt : ℝ) (h : dt < 0.0001)
    (hx : t.x_ = s.x_) (hy : t.y_ = s.y_) (hh : t.heading_ = s.heading_)
    (hl : t.linear_ = s.linear_) (ha : t.angular_ = s.angular_) :
    (update_odometry t lv ang dt).2 = false ∧
    (update_odometry t lv ang dt).1.linear_ = s.linear_ ∧
    (update_odometry t lv ang dt).1.angular_ = s.angular_ ∧
    (update_odometry t lv ang dt).1.x_ = (integrate_exact s (lv * dt) ang).x_ ∧
    (update_odometry t lv ang dt).1.y_ = (integrate_exact s (lv * dt) ang).y_ ∧
    (update_odometry t lv ang dt).1.heading_ = (integrate_exact s (lv * dt) ang).heading_ := by
  rw [update_odometry_small_dt t lv ang dt h]
  obtain ⟨hl2, ha2⟩ := integrate_exact_linear_angular t (lv * dt) ang
  obtain ⟨hx2, hy2, hh2⟩ := integrate_exact_pose_congr s t (lv * dt) ang hx hy hh
  exact ⟨rfl, hl2.trans hl, ha2.trans ha, hx2, hy2, hh2⟩

/-- A concrete odometry state for evaluating the model: origin pose,
`angular_ = 1`, unit geometry, zero steering offset, empty ten-sample
accumulators, four-steering configuration. -/
def sampleState : SteeringOdometry :=
  ⟨0, 0, 0, 0, 1, 1, 1, 1, 0, 0, 0, 0, 0, ⟨10, []⟩, ⟨10, []⟩, 3⟩

/-! ## Claim theorems -/

/-- C1 (amended): when `dt < 1e-4`, every velocity-update entry point returns
`false`, still advances the pose by the computed integration delta, and leaves
`linear_` untouched; the six `update_from_position` / `update_from_velocity`
overloads also leave `angular_` untouched, but `update_four_steering`
overwrites `angular_` with the newly computed angular velocity by direct
member assignment before the `dt` check. -/
theorem small_dt_update_behavior (s : SteeringOdometry) (a b c d e f dt : ℝ)
    (h : dt < 0.0001) :
    ((update_from_position1 s a b dt).2 = false ∧
     (update_from_position1 s a b dt).1.linear_ = s.linear_ ∧
     (update_from_position1 s a b dt).1.angular_ = s.angular_ ∧
     (update_from_position1 s a b dt).1.x_ =
       (integrate_exact s ((a * s.wheel_radius_ - s.traction_wheel_old_pos_) / dt * dt)
         (Real.tan b * ((a * s.wheel_radius_ - s.traction_wheel_old_pos_) / dt) /
           s.wheelbase_)).x_ ∧
     (update_from_position1 s a b dt).1.y_ =
       (integrate_exact s ((a * s.wheel_radius_ - s.traction_wheel_old_pos_) / dt * dt)
         (Real.tan b * ((a * s.wheel_radius_ - s.traction_wheel_old_pos_) / dt) /
           s.wheelbase_)).y_ ∧
     (update_from_position1 s a b dt).1.heading_ =
       (integrate_exact s ((a * s.wheel_radius_ - s.traction_wheel_old_pos_) / dt * dt)
         (Real.tan b * ((a * s.wheel_radius_ - s.traction_wheel_old_pos_) / dt) /
           s.wheelbase_)).heading_) ∧
    ((update_from_position2 s a b c dt).2 = false ∧
     (update_from_position2 s a b c dt).1.linear_ = s.linear_ ∧
     (update_from_position2 s a b c dt).1.angular_ = s.angular_ ∧
     (update_from_position2 s a b c dt).1.x_ =
       (integrate_exact s
         ((a * s.wheel_radius_ - s.traction_right_wheel_old_pos_ +
           (b * s.wheel_radius_ - s.traction_left_wheel_old_pos_)) * 0.5 / dt * dt)
         (Real.tan c *
           ((a * s.wheel_radius_ - s.traction_right_wheel_old_pos_ +
             (b * s.wheel_radius_ - s.traction_left_wheel_old_pos_)) * 0.5 / dt) /
           s.wheelbase_)).x_ ∧
     (update_from_position2 s a b c dt).1.y_ =
       (integrate_exact s
         ((a * s.wheel_radius_ - s.traction_right_wheel_old_pos_ +
           (b * s.wheel_radius_ - s.traction_left_wheel_old_pos_)) * 0.5 / dt * dt)
         (Real.tan c *
           ((a * s.wheel_radius_ - s.traction_right_wheel_old_pos_ +
             (b * s.wheel_radius_ - s.traction_left_wheel_old_pos_)) * 0.5 / dt) /
           s.wheelbase_)).y_ ∧
     (update_from_position2 s a b c dt).1.heading_ =
       (integrate_exact s
         ((a * s.wheel_radius_ - s.traction_right_wheel_old_pos_ +
           (b * s.wheel_radius_ - s.traction_left_wheel_old_pos_)) * 0.5 / dt * dt)
         (Real.tan c *
           ((a * s.wheel_radius_ - s.traction_right_wheel_old_pos_ +
             (b * s.wheel_radius_ - s.traction_left_wheel_old_pos_)) * 0.5 / dt) /
           s.wheelbase_)).heading_) ∧
    ((update_from_position3 s a b c d dt).2 = false ∧
     (update_from_position3 s a b c d dt).1.linear_ = s.linear_ ∧
     (update_from_position3 s a b c d dt).1.angular_ = s.angular_ ∧
     (update_from_position3 s a b c d dt).1.x_ =
       (integrate_exact s
         ((a * s.wheel_radius_ - s.traction_right_wheel_old_pos_ +
           (b * s.wheel_radius_ - s.traction_left_wheel_old_pos_)) * 0.5 / dt * dt)
         (Real.tan ((c + d) * 0.5) *
           ((a * s.wheel_radius_ - s.traction_right_wheel_old_pos_ +
             (b * s.wheel_radius_ - s.traction_left_wheel_old_pos_)) * 0.5 / dt) /
           s.wheelbase_)).x_ ∧
     (update_from_position3 s a b c d dt).1.y_ =
       (integrate_exact s
         ((a * s.wheel_radius_ - s.traction_right_wheel_old_pos_ +
           (b * s.wheel_radius_ - s.traction_left_wheel_old_pos_)) * 0.5 / dt * dt)
         (Real.tan ((c + d) * 0.5) *
           ((a * s.wheel_radius_ - s.traction_right_wheel_old_pos_ +
             (b * s.wheel_radius_ - s.traction_left_wheel_old_pos_)) * 0.5 / dt) /
           s.wheelbase_)).y_ ∧
     (update_from_position3 s a b c d dt).1.heading_ =
       (integrate_exact s
         ((a * s.wheel_radius_ - s.traction_right_wheel_old_pos_ +
           (b * s.wheel_radius_ - s.traction_left_wheel_old_pos_)) * 0.5 / dt * dt)
         (Real.tan ((c + d) * 0.5) *
           ((a * s.wheel_radius_ - s.traction_right_wheel_old_pos_ +
             (b * s.wheel_radius_ - s.traction_left_wheel_old_pos_)) * 0.5 / dt) /
           s.wheelbase_)).heading_) ∧
    ((update_from_velocity1 s a b dt).2 = false ∧
     (update_from_velocity1 s a b dt).1.linear_ = s.linear_ ∧
     (update_from_velocity1 s a b dt).1.angular_ = s.angular_ ∧
     (update_from_velocity1 s a b dt).1.x_ =
       (integrate_exact s (a * s.wheel_radius_ * dt)
         (Real.tan b * (a * s.wheel_radius_) / s.wheelbase_)).x_ ∧
     (update_from_velocity1 s a b dt).1.y_ =
       (integrate_exact s (a * s.wheel_radius_ * dt)
         (Real.tan b * (a * s.wheel_radius_) / s.wheelbase_)).y_ ∧
     (update_from_velocity1 s a b dt).1.heading_ =
       (integrate_exact s (a * s.wheel_radius_ * dt)
         (Real.tan b * (a * s.wheel_radius_) / s.wheelbase_)).heading_) ∧
    ((update_from_velocity2 s a b c dt).2 = false ∧
     (update_from_velocity2 s a b c dt).1.linear_ = s.linear_ ∧
     (update_from_velocity2 s a b c dt).1.angular_ = s.angular_ ∧
     (update_from_velocity2 s a b c dt).1.x_ =
       (integrate_exact s ((a + b) * s.wheel_radius_ * 0.5 * dt)
         (Real.tan c * ((a + b) * s.wheel_radius_ * 0.5) / s.wheelbase_)).x_ ∧
     (update_from_velocity2 s a b c dt).1.y_ =
       (integrate_exact s ((a + b) * s.wheel_radius_ * 0.5 * dt)
         (Real.tan c * ((a + b) * s.wheel_radius_ * 0.5) / s.wheelbase_)).y_ ∧
     (update_from_velocity2 s a b c dt).1.heading_ =
       (integrate_exact s ((a + b) * s.wheel_radius_ * 0.5 * dt)
         (Real.tan c * ((a + b) * s.wheel_radius_ * 0.5) / s.wheelbase_)).heading_) ∧
    ((update_from_velocity3 s a b c d dt).2 = false ∧
     (update_from_velocity3 s a b c d dt).1.linear_ = s.linear_ ∧
     (update_from_velocity3 s a b c d dt).1.angular_ = s.angular_ ∧
     (update_from_velocity3 s a b c d dt).1.x_ =
       (integrate_exact s ((a + b) * s.wheel_radius_ * 0.5 * dt)
         ((c + d) * 0.5 * ((a + b) * s.wheel_radius_ * 0.5) / s.wheelbase_)).x_ ∧
     (update_from_velocity3 s a b c d dt).1.y_ =
       (integrate_exact s ((a + b) * s.wheel_radius_ * 0.5 * dt)
         ((c + d) * 0.5 * ((a + b) * s.wheel_radius_ * 0.5) / s.wheelbase_)).y_ ∧
     (update_from_velocity3 s a b c d dt).1.heading_ =
       (integrate_exact s ((a + b) * s.wheel_radius_ * 0.5 * dt)
         ((c + d) * 0.5 * ((a + b) * s.wheel_radius_ * 0.5) / s.wheelbase_)).heading_) ∧
    ((update_four_steering s a b c d e f dt).2 = false ∧
     (update_four_steering s a b c d e f dt).1.linear_ = s.linear_ ∧
     ∃ l w, (update_four_steering s a b c d e f dt).1.angular_ = w ∧
       (update_four_steering s a b c d e f dt).1.x_ = (integrate_exact s (l * dt) w).x_ ∧
       (update_four_steering s a b c d e f dt).1.y_ = (integrate_exact s (l * dt) w).y_ ∧
       (update_four_steering s a b c d e f dt).1.heading_ =
         (integrate_exact s (l * dt) w).heading_) := by
  refine ⟨?_, ?_, ?_, ?_, ?_, ?_, ?_⟩
  · simp only [update_from_position1]
    exact small_dt_entry s _ _ _ dt h rfl rfl rfl rfl rfl
  · simp only [update_from_position2]
    exact small_dt_entry s _ _ _ dt h rfl rfl rfl rfl rfl
  · simp only [update_from_position3]
    exact small_dt_entry s _ _ _ dt h rfl rfl rfl rfl rfl
  · simp only [update_from_velocity1]
    exact small_dt_entry s _ _ _ dt h rfl rfl rfl rfl rfl
  · simp only [update_from_velocity2]
    exact small_dt_entry s _ _ _ dt h rfl rfl rfl rfl rfl
  · simp only [update_from_velocity3]
    exact small_dt_entry s _ _ _ dt h rfl rfl rfl rfl rfl
  · simp only [update_four_steering]
    rw [update_odometry_small_dt _ _ _ _ h]
    refine ⟨rfl, (integrate_exact_linear_angular _ _ _).1, _, _,
      (integrate_exact_linear_angular _ _ _).2,
      (integrate_exact_pose_congr s _ _ _ ?_ ?_ ?_).1,
      (integrate_exact_pose_congr s _ _ _ ?_ ?_ ?_).2.1,
      (integrate_exact_pose_congr s _ _ _ ?_ ?_ ?_).2.2⟩ <;> rfl

/-- Witness for C1 at a concrete state and `dt = 0.00005 < 1e-4`. -/
theorem small_dt_update_behavior_witness :
    (update_from_velocity1 sampleState 1 0 0.00005).2 = false ∧
    (update_from_velocity1 sampleState 1 0 0.00005).1.linear_ = sampleState.linear_ ∧
    (update_from_velocity1 sampleState 1 0 0.00005).1.angular_ = sampleState.angular_ := by
  have h := small_dt_update_behavior sampleState 1 0 0 0 0 0 0.00005 (by norm_num)
  exact ⟨h.2.2.2.1.1, h.2.2.2.1.2.1, h.2.2.2.1.2.2.1⟩

/-- C1 counterexample: `update_four_steering` with `dt = 0.00005 < 1e-4` on a
state with `angular_ = 1` returns `false` but still overwrites `angular_`
(here with the freshly computed value `0`), so the reported angular velocity
estimate does not remain as before the call. -/
theorem four_steering_small_dt_overwrites_angular :
    (update_four_steering sampleState 1 1 1 1 0 0 0.00005).2 = false ∧
    (update_four_steering sampleState 1 1 1 1 0 0 0.00005).1.angular_ ≠
      sampleState.angular_ := by
  constructor
  · simp only [update_four_steering]
    rw [update_odometry_small_dt _ _ _ _ (by norm_num)]
  · simp only [update_four_steering]
    rw [update_odometry_small_dt _ _ _ _ (by norm_num)]
    dsimp only
    rw [integrate_exact_angular]
    norm_num [sampleState, Real.tan_zero]

/-- C2: every position/velocity-based update reaches the pose integrator through
`update_odometry`, which passes `linear_velocity * dt` and the **unscaled**
angular value, while `update_open_loop` passes `linear * dt` and `angular * dt`
(both scaled); stated extensionally on the resulting pose. -/
theorem integrator_dt_scaling_asymmetry (s : SteeringOdometry) (lv ang lin dt : ℝ) :
    ((update_odometry s lv ang dt).1.x_ = (integrate_exact s (lv * dt) ang).x_ ∧
     (update_odometry s lv ang dt).1.y_ = (integrate_exact s (lv * dt) ang).y_ ∧
     (update_odometry s lv ang dt).1.heading_ = (integrate_exact s (lv * dt) ang).heading_) ∧
    ((update_open_loop s lin ang dt).x_ = (integrate_exact s (lin * dt) (ang * dt)).x_ ∧
     (update_open_loop s lin ang dt).y_ = (integrate_exact s (lin * dt) (ang * dt)).y_ ∧
     (update_open_loop s lin ang dt).heading_ =
       (integrate_exact s (lin * dt) (ang * dt)).heading_) := by
  constructor
  · unfold update_odometry
    split
    · exact ⟨rfl, rfl, rfl⟩
    · exact ⟨rfl, rfl, rfl⟩
  · unfold update_open_loop
    exact integrate_exact_pose_congr s _ (lin * dt) (ang * dt) rfl rfl rfl

/-- C3 (amended): the single-steering-axis `update_from_velocity` overloads
mirror the position variants — linear velocity is the (averaged) wheel
velocity times `wheel_radius_` and angular velocity is
`tan(steer) * linear_velocity / wheelbase_` — but the dual-steering-axis
overload multiplies by the averaged steering angle itself, **without** `tan`,
unlike its position counterpart. -/
theorem update_from_velocity_formulas (s : SteeringOdometry) (a b c d dt : ℝ) :
    update_from_velocity1 s a b dt =
      update_odometry { s with steer_pos_ := b } (a * s.wheel_radius_)
        (Real.tan b * (a * s.wheel_radius_) / s.wheelbase_) dt ∧
    update_from_velocity2 s a b c dt =
      update_odometry { s with steer_pos_ := c } ((a + b) * s.wheel_radius_ * 0.5)
        (Real.tan c * ((a + b) * s.wheel_radius_ * 0.5) / s.wheelbase_) dt ∧
    update_from_velocity3 s a b c d dt =
      update_odometry { s with steer_pos_ := (c + d) * 0.5 }
        ((a + b) * s.wheel_radius_ * 0.5)
        ((c + d) * 0.5 * ((a + b) * s.wheel_radius_ * 0.5) / s.wheelbase_) dt := by
  exact ⟨rfl, rfl, rfl⟩

/-- C3 counterexample: with both steering axes at `π/4` (so the averaged
steering angle is `π/4`, whose tangent is `1`), unit geometry, both wheel
velocities `1` and `dt = 1`, the dual-steering-axis velocity overload reports
the angular estimate `π/4`, not the `tan`-based value `1` the claim requires
(the two differ since `π ≠ 4`). -/
theorem dual_steer_velocity_overload_no_tan :
    (update_from_velocity3 sampleState 1 1 (Real.pi / 4) (Real.pi / 4) 1).1.angular_ =
      Real.pi / 4 ∧
    Real.pi / 4 ≠ Real.tan ((Real.pi / 4 + Real.pi / 4) * 0.5) *
      ((1 + 1) * sampleState.wheel_radius_ * 0.5) / sampleState.wheelbase_ := by
  constructor
  · simp only [update_from_velocity3, update_odometry]
    rw [if_neg (by norm_num : ¬ (1 : ℝ) < 0.0001)]
    dsimp only
    rw [integrate_exact_angular_acc]
    simp [RollingMeanAcc.accumulate, RollingMeanAcc.getRollingMean, sampleState]
    ring_nf
  · have harg : (Real.pi / 4 + Real.pi / 4) * 0.5 = Real.pi / 4 := by ring
    rw [harg, Real.tan_pi_div_four]
    simp only [sampleState]
    intro hcontra
    have hpi := Real.pi_lt_d2
    norm_num at hcontra
    linarith

/-- C4: one pose-integration step is the Runge-Kutta 2nd-order rule when
`|angular| < 1e-6` and the exact arc rule with `r = linear / angular`
otherwise. -/
theorem integrate_exact_branches (s : SteeringOdometry) (linear angular : ℝ) :
    integrate_exact s linear angular =
      if |angular| < 1e-6 then
        { s with
          x_ := s.x_ + linear * Real.cos (s.heading_ + angular / 2)
          y_ := s.y_ + linear * Real.sin (s.heading_ + angular / 2)
          heading_ := s.heading_ + angular }
      else
        { s with
          x_ := s.x_ + linear / angular * (Real.sin (s.heading_ + angular) - Real.sin s.heading_)
          y_ := s.y_ - linear / angular * (Real.cos (s.heading_ + angular) - Real.cos s.heading_)
          heading_ := s.heading_ + angular } := by
  unfold integrate_exact integrate_runge_kutta_2
  split <;>
    simp only [SteeringOdometry.mk.injEq, and_true, true_and] <;>
    first
      | (constructor <;> ring_nf)
      | ring_nf

/-- C5: with `from_twist = true`, the intermediate steering angle `alpha` and
wheel angular speed `Ws` of `get_commands` are computed as the claim states:
turning-in-place (`Vx = 0`, `angular ≠ 0`) gives `alpha = ±π/2` by the sign of
`angular` and `Ws = |angular| * wheelbase / wheel_radius`; otherwise
`alpha = atan(angular * wheelbase / Vx)` — which is `0` whenever `Vx = 0` or
`angular = 0` — and `Ws = Vx / (wheel_radius * cos(steer_pos_))`. -/
theorem get_commands_twist_intermediates (s : SteeringOdometry) (Vx angular w : ℝ) :
    (Vx = 0 → angular ≠ 0 →
      (get_commands_ws_alpha s Vx angular true w).2 =
        (if 0 < angular then Real.pi / 2 else -(Real.pi / 2)) ∧
      (get_commands_ws_alpha s Vx angular true w).1 =
        |angular| * s.wheelbase_ / s.wheel_radius_) ∧
    (¬(Vx = 0 ∧ angular ≠ 0) →
      (get_commands_ws_alpha s Vx angular true w).2 =
        Real.arctan (angular * s.wheelbase_ / Vx) ∧
      ((Vx = 0 ∨ angular = 0) → (get_commands_ws_alpha s Vx angular true w).2 = 0) ∧
      (get_commands_ws_alpha s Vx angular true w).1 =
        Vx / (s.wheel_radius_ * Real.cos s.steer_pos_)) := by
  constructor
  · intro h1 h2
    unfold get_commands_ws_alpha
    rw [if_pos rfl, if_pos ⟨h1, h2⟩]
    exact ⟨rfl, rfl⟩
  · intro h
    unfold get_commands_ws_alpha
    rw [if_pos rfl, if_neg h]
    refine ⟨?_, ?_, rfl⟩
    · unfold convert_trans_rot_vel_to_steering_angle
      by_cases h0 : angular = 0
      · rw [if_pos (Or.inl h0), h0]
        simp
      · have hVx : Vx ≠ 0 := fun hv => h ⟨hv, h0⟩
        rw [if_neg (by rintro (h' | h') <;> [exact h0 h'; exact hVx h'])]
    · intro hor
      unfold convert_trans_rot_vel_to_steering_angle
      rcases hor with h' | h'
      · rw [if_pos (Or.inr h')]
      · rw [if_pos (Or.inl h')]

/-- Witness for C5: turning in place (`Vx = 0`, `angular = 1`) on the sample
state gives `alpha = π/2` and `Ws = |1| * wheelbase / wheel_radius`. -/
theorem get_commands_twist_intermediates_witness :
    (get_commands_ws_alpha sampleState 0 1 true 0).2 = Real.pi / 2 ∧
    (get_commands_ws_alpha sampleState 0 1 true 0).1 =
      |(1 : ℝ)| * sampleState.wheelbase_ / sampleState.wheel_radius_ := by
  have h := (get_commands_twist_intermediates sampleState 0 1 0).1 rfl (by norm_num)
  refine ⟨?_, h.2⟩
  rw [h.1, if_pos (by norm_num)]

/-- C6 (code bug witnessed): with `from_twist = false` and the BICYCLE
configuration, `alpha` is the `angular` argument directly, but the local `Ws`
is read while still holding its indeterminate initial value and returned as
the traction command — the output *does* depend on the uninitialized `Ws`
(undefined behavior in the C++ source): two different indeterminate values
give two different traction commands. -/
theorem bicycle_pass_through_uses_uninitialized_ws :
    get_commands { sampleState with config_type_ := BICYCLE_CONFIG } 1 (1 / 2) false 0 =
      Except.ok ([0], [1 / 2]) ∧
    get_commands { sampleState with config_type_ := BICYCLE_CONFIG } 1 (1 / 2) false 7 =
      Except.ok ([7], [1 / 2]) := by
  constructor <;> simp [get_commands, get_commands_ws_alpha, sampleState, BICYCLE_CONFIG]

/-- C7: `limit` applies the jerk, acceleration and velocity stages in that fixed
order with the stated clamp formulas; a disabled stage leaves the value
unchanged; each stage and `limit` itself returns (final v)/(original v), or
`1.0` when the original value was exactly zero. -/
theorem speed_limiter_stage_order (lim : SpeedLimiter) (v v0 v1 dt : ℝ) :
    lim.limit_jerk v v0 v1 dt =
      ((if lim.has_jerk_limits_ then
          v0 + (v0 - v1) + clamp ((v - v0) - (v0 - v1)) (lim.min_jerk_ * (2 * dt * dt))
            (lim.max_jerk_ * (2 * dt * dt))
        else v),
       if v = 0 then 1 else (lim.limit_jerk v v0 v1 dt).1 / v) ∧
    lim.limit_acceleration v v0 dt =
      ((if lim.has_acceleration_limits_ then
          v0 + clamp (v - v0) (lim.min_acceleration_ * dt) (lim.max_acceleration_ * dt)
        else v),
       if v = 0 then 1 else (lim.limit_acceleration v v0 dt).1 / v) ∧
    lim.limit_velocity v =
      ((if lim.has_velocity_limits_ then clamp v lim.min_velocity_ lim.max_velocity_ else v),
       if v = 0 then 1 else (lim.limit_velocity v).1 / v) ∧
    lim.limit v v0 v1 dt =
      ((lim.limit_velocity (lim.limit_acceleration (lim.limit_jerk v v0 v1 dt).1 v0 dt).1).1,
       if v = 0 then 1 else (lim.limit v v0 v1 dt).1 / v) := by
  refine ⟨?_, ?_, ?_, ?_⟩
  · unfold SpeedLimiter.limit_jerk
    rcases eq_or_ne v 0 with h | h <;> simp [h]
  · unfold SpeedLimiter.limit_acceleration
    rcases eq_or_ne v 0 with h | h <;> simp [h]
  · unfold SpeedLimiter.limit_velocity
    rcases eq_or_ne v 0 with h | h <;> simp [h]
  · unfold SpeedLimiter.limit
    rcases eq_or_ne v 0 with h | h <;> simp [h]

/-- C8: construction of a `SpeedLimiter` fails with a configuration error
whenever an enabled limit category has an unspecified (`NaN`) maximum; when an
enabled category's maximum is specified but its minimum is not, construction
succeeds and sets that minimum to the negated maximum. -/
theorem speed_limiter_construction_validation (hv ha hj : Bool)
    (minV maxV minA maxA minJ maxJ : Option ℝ) :
    (hv = true → maxV = none →
      ∃ msg, mkSpeedLimiter hv ha hj minV maxV minA maxA minJ maxJ = Except.error msg) ∧
    (ha = true → maxA = none →
      ∃ msg, mkSpeedLimiter hv ha hj minV maxV minA maxA minJ maxJ = Except.error msg) ∧
    (hj = true → maxJ = none →
      ∃ msg, mkSpeedLimiter hv ha hj minV maxV minA maxA minJ maxJ = Except.error msg) ∧
    ((hv = true → maxV ≠ none) → (ha = true → maxA ≠ none) → (hj = true → maxJ ≠ none) →
      ∃ lim, mkSpeedLimiter hv ha hj minV maxV minA maxA minJ maxJ = Except.ok lim ∧
        (hv = true → minV = none → ∀ m, maxV = some m → lim.min_velocity_ = -m) ∧
        (ha = true → minA = none → ∀ m, maxA = some m → lim.min_acceleration_ = -m) ∧
        (hj = true → minJ = none → ∀ m, maxJ = some m → lim.min_jerk_ = -m)) := by
  cases hv <;> cases ha <;> cases hj <;>
    cases maxV <;> cases maxA <;> cases maxJ <;>
      simp [mkSpeedLimiter, resolve_limits] <;> aesop

/-- Witness for C8: enabled acceleration limits with unspecified maximum fail
construction; enabled velocity limits with `max = 2` and unspecified minimum
succeed with `min_velocity = -2`. -/
theorem speed_limiter_construction_validation_witness :
    (∃ msg, mkSpeedLimiter false true false none none none none none none =
      Except.error msg) ∧
    (∃ lim, mkSpeedLimiter true false false none (some 2) none none none none =
      Except.ok lim ∧ lim.min_velocity_ = -2) := by
  constructor
  · exact (speed_limiter_construction_validation false true false
      none none none none none none).2.1 rfl rfl
  · obtain ⟨lim, hok, hmin, -, -⟩ := (speed_limiter_construction_validation true false false
      none (some 2) none none none none).2.2.2
      (fun _ => by simp) (fun h => by simp at h) (fun h => by simp at h)
    exact ⟨lim, hok, hmin rfl rfl 2 rfl⟩

/-- C9: in the FOUR_WHEEL_STEERING configuration, `get_commands` from a twist
with zero angular rate returns four steering commands that are all zero and
four traction commands that are all equal. -/
theorem four_steering_straight_line_commands (s : SteeringOdometry) (Vx w : ℝ)
    (hcfg : s.config_type_ = FOUR_STEERING_CONFIG) :
    ∃ t, get_commands s Vx 0 true w = Except.ok ([t, t, t, t], [0, 0, 0, 0]) := by
  have halpha : (get_commands_ws_alpha s Vx 0 true w).2 = 0 := by
    unfold get_commands_ws_alpha convert_trans_rot_vel_to_steering_angle
    simp
  refine ⟨(get_commands_ws_alpha s Vx 0 true w).1 / s.wheel_radius_, ?_⟩
  simp only [get_commands]
  rw [hcfg]
  rw [if_neg (by decide), if_neg (by decide), if_neg (by decide), if_pos rfl]
  rw [halpha]
  simp only [mul_zero, zero_mul, zero_div, sub_zero, add_zero, neg_zero, abs_zero,
    hypot_zero_right, copysign_one_mul_abs, Real.arctan_zero]
  by_cases hW : (get_commands_ws_alpha s Vx 0 true w).1 = 0
  · rw [hW]
    norm_num
  · have h2 : (0 : ℝ) < |2 * (get_commands_ws_alpha s Vx 0 true w).1| :=
      abs_pos.mpr (by intro hc; exact hW (by linarith))
    rw [if_pos h2]
    norm_num

/-- Witness for C9 at the sample state (four-steering configuration, `Vx = 1`). -/
theorem four_steering_straight_line_commands_witness :
    ∃ t, get_commands sampleState 1 0 true 0 = Except.ok ([t, t, t, t], [0, 0, 0, 0]) :=
  four_steering_straight_line_commands sampleState 1 0 rfl

/-- C10: with velocity limits enabled and `min_velocity ≤ max_velocity`, the
value written back by the combined `limit` entry point always lies in
`[min_velocity, max_velocity]`, whatever the other stages did. -/
theorem velocity_clamp_bounds_final_output (lim : SpeedLimiter) (v v0 v1 dt : ℝ)
    (hen : lim.has_velocity_limits_ = true)
    (hle : lim.min_velocity_ ≤ lim.max_velocity_) :
    lim.min_velocity_ ≤ (lim.limit v v0 v1 dt).1 ∧
    (lim.limit v v0 v1 dt).1 ≤ lim.max_velocity_ := by
  have hfin : (lim.limit v v0 v1 dt).1 =
      clamp (lim.limit_acceleration (lim.limit_jerk v v0 v1 dt).1 v0 dt).1
        lim.min_velocity_ lim.max_velocity_ := by
    unfold SpeedLimiter.limit SpeedLimiter.limit_velocity
    rw [hen]
    simp
  rw [hfin]
  exact clamp_mem_of_le _ _ _ hle

/-- Witness for C10 at a concrete limiter and inputs. -/
theorem velocity_clamp_bounds_final_output_witness :
    (-1 : ℝ) ≤ (SpeedLimiter.limit ⟨true, false, false, -1, 1, 0, 0, 0, 0⟩ 5 0 0 1).1 ∧
    (SpeedLimiter.limit ⟨true, false, false, -1, 1, 0, 0, 0, 0⟩ 5 0 0 1).1 ≤ 1 := by
  have h := velocity_clamp_bounds_final_output ⟨true, false, false, -1, 1, 0, 0, 0, 0⟩
    5 0 0 1 rfl (by norm_num)
  exact h

end SteeringVerif
